import Mathlib

/-!
Verification of the land-temperature ETL pipeline (transform + load).

The Python sources are shallowly embedded as Lean definitions:
dataframes become lists of records, SQL tables become lists of rows with
explicit surrogate keys, fallible operations return `Except String`.
Numeric measurement values are modelled as rationals, years as integers,
and surrogate keys as naturals.
-/

namespace LandTemp

/-! ## Configuration (src/etl/config.py)

Static classification tables and validation bounds, verbatim from
`config.py`.  Python dicts preserve insertion order, so each mapping is a
list of pairs iterated in the written order. -/

def MIN_YEAR : Int := 1880

def MAX_YEAR : Int := 2200

def MIN_TEMP_CHANGE : ℚ := -20

def MAX_TEMP_CHANGE : ℚ := 20

def WORLD_NAMES : List String := ["World"]

def CONTINENT_NAMES : List String :=
  ["Africa", "Americas", "Asia", "Europe", "Oceania"]

def SUBREGION_NAMES : List String :=
  [ "Eastern Africa", "Middle Africa", "Northern Africa",
    "Southern Africa", "Western Africa",
    "Caribbean", "Central America", "South America", "Northern America",
    "Central Asia", "Eastern Asia", "South-eastern Asia",
    "Southern Asia", "Western Asia",
    "Eastern Europe", "Northern Europe", "Southern Europe", "Western Europe",
    "Australia and New Zealand", "Melanesia", "Micronesia", "Polynesia" ]

def AREA_TYPE_MAPPING : List (String × List String) :=
  [ ("world", WORLD_NAMES),
    ("continent", CONTINENT_NAMES),
    ("subregion", SUBREGION_NAMES) ]

def MONTH_NAMES : List String :=
  [ "January", "February", "March", "April", "May", "June",
    "July", "August", "September", "October", "November", "December" ]

def SEASON_NAMES : List String :=
  [ "December-January-February", "March-April-May",
    "June-July-August", "September-October-November",
    "Dec–Jan–Feb", "Mar–Apr–May",
    "Jun–Jul–Aug", "Sep–Oct–Nov" ]

def ANNUAL_NAMES : List String := ["Meteorological year"]

def PERIOD_TYPE_MAPPING : List (String × List String) :=
  [ ("month", MONTH_NAMES),
    ("season", SEASON_NAMES),
    ("annual", ANNUAL_NAMES) ]

def MONTH_TO_NUMBER : List (String × Nat) :=
  [ ("January", 1), ("February", 2), ("March", 3), ("April", 4),
    ("May", 5), ("June", 6), ("July", 7), ("August", 8),
    ("September", 9), ("October", 10), ("November", 11), ("December", 12) ]

def SEASON_TO_QUARTER : List (String × Nat) :=
  [ ("December-January-February", 1),
    ("March-April-May", 2),
    ("June-July-August", 3),
    ("September-October-November", 4),
    ("Dec–Jan–Feb", 1),
    ("Mar–Apr–May", 2),
    ("Jun–Jul–Aug", 3),
    ("Sep–Oct–Nov", 4) ]

def SUBREGION_TO_CONTINENT : List (String × String) :=
  [ ("Eastern Africa", "Africa"),
    ("Middle Africa", "Africa"),
    ("Northern Africa", "Africa"),
    ("Southern Africa", "Africa"),
    ("Western Africa", "Africa"),
    ("Caribbean", "Americas"),
    ("Central America", "Americas"),
    ("South America", "Americas"),
    ("Northern America", "Americas"),
    ("Central Asia", "Asia"),
    ("Eastern Asia", "Asia"),
    ("South-eastern Asia", "Asia"),
    ("Southern Asia", "Asia"),
    ("Western Asia", "Asia"),
    ("Eastern Europe", "Europe"),
    ("Northern Europe", "Europe"),
    ("Southern Europe", "Europe"),
    ("Western Europe", "Europe"),
    ("Australia and New Zealand", "Oceania"),
    ("Melanesia", "Oceania"),
    ("Micronesia", "Oceania"),
    ("Polynesia", "Oceania") ]

/-! ## Classifiers (src/etl/utils/area_classifier.py, period_classifier.py) -/

instance {ε α : Type} [DecidableEq ε] [DecidableEq α] :
    DecidableEq (Except ε α)
  | .error x, .error y => decidable_of_iff (x = y) (by simp)
  | .error _, .ok _ => .isFalse (fun h => Except.noConfusion h)
  | .ok _, .error _ => .isFalse (fun h => Except.noConfusion h)
  | .ok x, .ok y => decidable_of_iff (x = y) (by simp)

/-- Python `str.strip()`: drop leading and trailing whitespace characters.
Defined over the character list so that it evaluates by kernel reduction. -/
def pyStrip (s : String) : String :=
  ⟨((s.data.dropWhile Char.isWhitespace).reverse.dropWhile
      Char.isWhitespace).reverse⟩

/-- Shared shape of `classify_area` and `classify_period`: the Python
`for`-loop over a type mapping returns the first type whose name list
contains the (already trimmed) name. -/
def findTypeIn (mapping : List (String × List String)) (name : String) :
    Option String :=
  (mapping.find? (fun p => p.2.contains name)).map (fun p => p.1)

/-- `classify_area`: trim, look the name up in `AREA_TYPE_MAPPING`, default
to "country" when unmatched.  Total, mirroring the Python function having no
raise path. -/
def classify_area (area_name : String) : String :=
  match findTypeIn AREA_TYPE_MAPPING (pyStrip area_name) with
  | some t => t
  | none => "country"

/-- `classify_period`: trim, look the name up in `PERIOD_TYPE_MAPPING`;
unmatched names raise `ValueError`, modelled as `Except.error`. -/
def classify_period (period_name : String) : Except String String :=
  match findTypeIn PERIOD_TYPE_MAPPING (pyStrip period_name) with
  | some t => Except.ok t
  | none => Except.error ("Unknown period name: " ++ pyStrip period_name)

/-- `get_month_number`: `MONTH_TO_NUMBER.get(period_name)` on the untrimmed
input. -/
def get_month_number (period_name : String) : Option Nat :=
  MONTH_TO_NUMBER.lookup period_name

/-- `get_quarter`: `SEASON_TO_QUARTER.get(period_name)` on the untrimmed
input. -/
def get_quarter (period_name : String) : Option Nat :=
  SEASON_TO_QUARTER.lookup period_name

/-- Result dictionary of `get_period_attributes`. -/
structure PeriodAttrs where
  period_type : String
  month_number : Option Nat
  quarter : Option Nat
deriving DecidableEq, Repr

/-- `get_period_attributes`: classification (which may fail) combined with
the month and quarter lookups. -/
def get_period_attributes (period_name : String) :
    Except String PeriodAttrs := do
  let t ← classify_period period_name
  Except.ok ⟨t, get_month_number period_name, get_quarter period_name⟩

/-- `get_parent_area`: parent name in the geographic hierarchy. -/
def get_parent_area (area_name : String) (area_type : String) :
    Option String :=
  if area_type = "world" then none
  else if area_type = "continent" then some "World"
  else if area_type = "subregion" then SUBREGION_TO_CONTINENT.lookup area_name
  else none

/-! ## Transform (src/etl/transform.py)

A wide dataframe row is its eight identifier columns plus one cell per
year column; the year-column labels are shared by all rows of the frame. -/

/-- The eight identifier columns of the raw wide dataframe, in the order of
`id_cols` in `unpivot_years`: "Area Code", "Area Code (M49)", "Area",
"Months Code", "Months", "Element Code", "Element", "Unit". -/
structure RawIds where
  area_code : String
  m49_code : String
  area_name : String
  months_code : String
  months : String
  element_code : String
  element : String
  unit : String
deriving DecidableEq, Repr

/-- A wide dataframe: the labels of its non-identifier columns, and the
rows, each pairing its identifiers with one (nullable) cell per label. -/
structure WideDF where
  yearCols : List String
  rows : List (RawIds × List (Option ℚ))
deriving DecidableEq, Repr

/-- Every row has one cell per year-column label. -/
def WideDF.wf (df : WideDF) : Prop :=
  ∀ r ∈ df.rows, r.2.length = df.yearCols.length

/-- One row of the long (unpivoted) frame, with the staging-schema column
names produced by the rename at the end of `unpivot_years`. -/
structure LongRecord where
  area_code : String
  m49_code : String
  area_name : String
  months_code : String
  period_name : String
  element_code : String
  element_name : String
  unit : String
  year : Int
  value : Option ℚ
deriving DecidableEq, Repr

/-- Digits of a decimal numeral folded into a natural number; `none` for an
empty or non-digit character list. -/
def natOfDigits (cs : List Char) : Option Nat :=
  if cs ≠ [] ∧ cs.all Char.isDigit then
    some (cs.foldl (fun n c => 10 * n + (c.toNat - 48)) 0)
  else none

/-- Year extraction of `unpivot_years`:
`col.replace("Y", "").astype(int)`.  Replacing the single-character pattern
"Y" by the empty string removes every Y character; the remainder must be a
numeral, otherwise `astype(int)` raises (modelled as `none`). -/
def parseYear (label : String) : Option Int :=
  (natOfDigits (label.data.filter (fun c => c ≠ 'Y'))).map Int.ofNat

/-- Python `col.startswith("Y")` for the single-character prefix. -/
def startsWithY (s : String) : Bool :=
  match s.data with
  | c :: _ => c == 'Y'
  | [] => false

/-- The rename from raw column names to the staging schema applied to one
melted cell. -/
def renameToLong (ids : RawIds) (year : Int) (value : Option ℚ) :
    LongRecord :=
  { area_code := ids.area_code
    m49_code := ids.m49_code
    area_name := ids.area_name
    months_code := ids.months_code
    period_name := ids.months
    element_code := ids.element_code
    element_name := ids.element
    unit := ids.unit
    year := year
    value := value }

/-- `unpivot_years`: select the columns whose label starts with "Y", melt
them (pandas emits the melted frame variable-major: for each value column,
every row in order), extract the numeric year from each label, and rename
to the staging schema.  A label whose remainder is not a numeral makes
`astype(int)` raise, modelled as `Except.error`. -/
def unpivot_years (df : WideDF) : Except String (List LongRecord) :=
  let ycols := (df.yearCols.enum).filter (fun p => startsWithY p.2)
  let melted := ycols.flatMap (fun p =>
    df.rows.map (fun r => (p.2, r.1, r.2.getD p.1 none)))
  melted.mapM (fun cell =>
    match parseYear cell.1 with
    | some y => Except.ok (renameToLong cell.2.1 y cell.2.2)
    | none => Except.error ("invalid year column label: " ++ cell.1))

/-- A long record together with the classification columns added by
`add_area_classification` and `add_period_classification`. -/
structure ClassifiedRecord extends LongRecord where
  area_type : String
  period_type : String
  month_number : Option Nat
  quarter : Option Nat
deriving DecidableEq, Repr

/-- `add_area_classification`: apply `classify_area` to each area name,
keeping the result alongside the record. -/
def add_area_classification (l : List LongRecord) :
    List (LongRecord × String) :=
  l.map (fun r => (r, classify_area r.area_name))

/-- `add_period_classification`: apply `get_period_attributes` to each
period name; a classification failure aborts the whole transformation. -/
def add_period_classification (l : List (LongRecord × String)) :
    Except String (List ClassifiedRecord) :=
  l.mapM (fun p => do
    let attrs ← get_period_attributes p.1.period_name
    Except.ok { p.1 with
      area_type := p.2
      period_type := attrs.period_type
      month_number := attrs.month_number
      quarter := attrs.quarter })

/-- Year-range check of `validate_data`. -/
def yearInRange (r : ClassifiedRecord) : Bool :=
  decide (MIN_YEAR ≤ r.year) && decide (r.year ≤ MAX_YEAR)

/-- Extreme-temperature rows of `validate_data`: non-null value, metric
"Temperature change", value outside the configured bounds.  The source only
logs these rows; they stay in the frame. -/
def extremeTemps (l : List ClassifiedRecord) : List ClassifiedRecord :=
  (l.filter (fun r => r.value.isSome)).filter (fun r =>
    (r.element_name == "Temperature change") &&
    (r.value.any (fun v =>
      decide (v < MIN_TEMP_CHANGE) || decide (v > MAX_TEMP_CHANGE))))

/-- `validate_data`: null values are only counted, rows with a year outside
[MIN_YEAR, MAX_YEAR] are dropped (the source filters only when at least one
such row exists), and extreme temperature-change values are only warned
about. -/
def validate_data (l : List ClassifiedRecord) : List ClassifiedRecord :=
  let invalid_years := l.filter (fun r => !(yearInRange r))
  let l2 := if invalid_years.length > 0 then l.filter yearInRange else l
  -- extremeTemps l2 is computed for the warning log only; rows are kept
  l2

/-- `transform_data`: unpivot, classify areas, classify periods, validate. -/
def transform_data (df : WideDF) : Except String (List ClassifiedRecord) := do
  let long ← unpivot_years df
  let classified ← add_period_classification (add_area_classification long)
  Except.ok (validate_data classified)

example : classify_area "Atlantis" = "country" := by decide
example : classify_area " Africa " = "continent" := by decide
example : classify_period "Foo" = Except.error "Unknown period name: Foo" := by decide
example : get_period_attributes "January" = Except.ok ⟨"month", some 1, none⟩ := by decide
example : get_period_attributes "Dec–Jan–Feb" = Except.ok ⟨"season", none, some 1⟩ := by decide
example : get_period_attributes " January" = Except.ok ⟨"month", none, none⟩ := by decide
example : get_parent_area "Eastern Africa" "subregion" = some "Africa" := by decide

/-! ## Load (src/etl/load.py)

The warehouse tables become lists of rows.  `TRUNCATE ... RESTART IDENTITY`
followed by a bulk insert assigns surrogate keys 1, 2, 3, ... in insertion
order. -/

/-- A row of `core.dim_area`. -/
structure AreaRow where
  area_key : Nat
  area_code : String
  m49_code : String
  area_name : String
  area_type : String
  parent_area_key : Option Nat
deriving DecidableEq, Repr

/-- A row of `core.dim_time_period`. -/
structure PeriodRow where
  period_key : Nat
  period_code : String
  period_name : String
  period_type : String
  month_number : Option Nat
  quarter : Option Nat
deriving DecidableEq, Repr

/-- A row of `core.dim_metric`. -/
structure MetricRow where
  metric_key : Nat
  metric_code : String
  metric_name : String
  unit : String
deriving DecidableEq, Repr

/-- A row of `core.fact_temperature`. -/
structure FactRow where
  area_key : Nat
  period_key : Nat
  metric_key : Nat
  year : Int
  value : Option ℚ
deriving DecidableEq, Repr

/-- pandas `DataFrame.drop_duplicates()`: keep the first occurrence of each
duplicated row, preserving order. -/
def dropDuplicates {α : Type} [DecidableEq α] : List α → List α :=
  go []
where
  go (seen : List α) : List α → List α
    | [] => []
    | a :: l => if a ∈ seen then go seen l else a :: go (a :: seen) l

/-- Attribute tuple projected for `dim_area`:
`df[["area_code", "m49_code", "area_name", "area_type"]]`. -/
def areaTuple (r : ClassifiedRecord) : String × String × String × String :=
  (r.area_code, r.m49_code, r.area_name, r.area_type)

/-- The rows inserted by `load_dim_area` before the hierarchy fixup:
deduplicated attribute tuples with serial surrogate keys and no parent. -/
def load_dim_area_rows (df : List ClassifiedRecord) : List AreaRow :=
  (dropDuplicates (df.map areaTuple)).enum.map (fun p =>
    { area_key := p.1 + 1
      area_code := p.2.1
      m49_code := p.2.2.1
      area_name := p.2.2.2.1
      area_type := p.2.2.2.2
      parent_area_key := none })

/-- Attribute tuple projected for `dim_time_period` (before the rename of
`months_code` to `period_code`). -/
def periodTuple (r : ClassifiedRecord) :
    String × String × String × Option Nat × Option Nat :=
  (r.months_code, r.period_name, r.period_type, r.month_number, r.quarter)

/-- `load_dim_time_period`: project, deduplicate, rename `months_code` to
`period_code`, truncate and insert with serial keys. -/
def load_dim_time_period (df : List ClassifiedRecord) : List PeriodRow :=
  (dropDuplicates (df.map periodTuple)).enum.map (fun p =>
    { period_key := p.1 + 1
      period_code := p.2.1
      period_name := p.2.2.1
      period_type := p.2.2.2.1
      month_number := p.2.2.2.2.1
      quarter := p.2.2.2.2.2 })

/-- Attribute tuple projected for `dim_metric` (before the rename of
`element_code`/`element_name` to `metric_code`/`metric_name`). -/
def metricTuple (r : ClassifiedRecord) : String × String × String :=
  (r.element_code, r.element_name, r.unit)

/-- `load_dim_metric`: project, deduplicate, rename, truncate and insert
with serial keys. -/
def load_dim_metric (df : List ClassifiedRecord) : List MetricRow :=
  (dropDuplicates (df.map metricTuple)).enum.map (fun p =>
    { metric_key := p.1 + 1
      metric_code := p.2.1
      metric_name := p.2.2.1
      unit := p.2.2.2 })

/-- A scalar subquery used as an expression: NULL on an empty result, the
value on a singleton, and a PostgreSQL error on more than one row. -/
def scalarSubquery (keys : List Nat) : Except String (Option Nat) :=
  match keys with
  | [] => Except.ok none
  | [k] => Except.ok (some k)
  | _ => Except.error "more than one row returned by a subquery used as an expression"

/-- Keys selected by
`SELECT area_key FROM core.dim_area WHERE area_name = name AND area_type = 'continent'`. -/
def continentKeys (rows : List AreaRow) (name : String) : List Nat :=
  (rows.filter (fun r => r.area_name == name && r.area_type == "continent")).map
    (fun r => r.area_key)

/-- The first UPDATE of `update_area_hierarchy`: point a continent row at
the world surrogate key (leaving every other row unchanged). -/
def continentUpdate (wk : Option Nat) (r : AreaRow) : AreaRow :=
  if r.area_type == "continent" then { r with parent_area_key := wk } else r

/-- One iteration of the subregion loop in `update_area_hierarchy`: resolve
the parent continent name with `get_parent_area` and, when one is
configured, set the parent key of the row with the given `area_key` to the
scalar subquery over continent rows of that name. -/
def subregionStep (acc : List AreaRow) (s : Nat × String) :
    Except String (List AreaRow) :=
  match get_parent_area s.2 "subregion" with
  | none => Except.ok acc
  | some parent =>
    match scalarSubquery (continentKeys acc parent) with
    | Except.error e => Except.error e
    | Except.ok pk =>
      Except.ok (acc.map (fun r =>
        if r.area_key == s.1 then { r with parent_area_key := pk } else r))

/-- `update_area_hierarchy`: point every continent row at the world row via
a scalar subquery, then loop over the subregion rows (selected after that
first update) pointing each at its configured parent continent. -/
def update_area_hierarchy (rows : List AreaRow) :
    Except String (List AreaRow) := do
  let wk ← scalarSubquery
    ((rows.filter (fun r => r.area_type == "world")).map (fun r => r.area_key))
  let rows1 := rows.map (continentUpdate wk)
  let subs := (rows1.filter (fun r => r.area_type == "subregion")).map
    (fun r => (r.area_key, r.area_name))
  subs.foldlM subregionStep rows1

/-- `load_facts`: truncate the fact table, then the three-way INNER JOIN of
staging against the dimensions, projecting surrogate keys plus the staged
year and value.  A SQL inner join emits one output row per matching
combination of rows. -/
def load_facts (stage : List LongRecord) (dimA : List AreaRow)
    (dimP : List PeriodRow) (dimM : List MetricRow) : List FactRow :=
  stage.flatMap (fun s =>
    (dimA.filter (fun a => s.m49_code == a.m49_code)).flatMap (fun a =>
      (dimP.filter (fun p => s.months_code == p.period_code)).flatMap (fun p =>
        (dimM.filter (fun m => s.element_code == m.metric_code)).map (fun m =>
          { area_key := a.area_key
            period_key := p.period_key
            metric_key := m.metric_key
            year := s.year
            value := s.value }))))

/-- The fields of an area row other than its parent key; the hierarchy
fixup rewrites only parent keys, so this skeleton is invariant under it. -/
def skelA (r : AreaRow) : Nat × String × String × String × String :=
  (r.area_key, r.area_code, r.m49_code, r.area_name, r.area_type)

/-- The warehouse state: the staging table, the three dimensions and the
fact table. -/
structure DB where
  staging : List LongRecord
  dim_area : List AreaRow
  dim_time_period : List PeriodRow
  dim_metric : List MetricRow
  fact_temperature : List FactRow
deriving DecidableEq, Repr

/-- Row counts reported by `get_load_statistics`. -/
structure Stats where
  staging : Nat
  areas : Nat
  time_periods : Nat
  metrics : Nat
  facts : Nat
deriving DecidableEq, Repr

/-- Staging projection of `load_to_staging`: the ten staging columns of a
transformed record. -/
def stagingProjection (r : ClassifiedRecord) : LongRecord :=
  r.toLongRecord

/-- The batch slices `df.iloc[i:i+batch_size]` taken by `load_to_staging`,
driven by a fuel argument so the recursion is structural; with
`batchSize ≥ 1` and `fuel ≥ l.length` every element lands in exactly one
batch, in order. -/
def batches {α : Type} (batchSize : Nat) : Nat → List α → List (List α)
  | 0, l => if l.isEmpty then [] else [l]
  | fuel + 1, l =>
    if l.isEmpty then []
    else l.take batchSize :: batches batchSize fuel (l.drop batchSize)

/-- `truncate_staging` followed by `load_to_staging`: empty the staging
table, then append each batch of projected rows in turn. -/
def load_to_staging (batchSize : Nat) (df : List ClassifiedRecord)
    (db : DB) : DB :=
  let truncated : DB := { db with staging := [] }
  (batches batchSize df.length (df.map stagingProjection)).foldl
    (fun acc b => { acc with staging := acc.staging ++ b }) truncated

/-- `load_dimensions`: truncate and rebuild the three dimension tables from
the transformed frame, running the area-hierarchy fixup after the area
insert. -/
def load_dimensions (df : List ClassifiedRecord) (db : DB) :
    Except String DB := do
  let dimA ← update_area_hierarchy (load_dim_area_rows df)
  Except.ok { db with
    dim_area := dimA
    dim_time_period := load_dim_time_period df
    dim_metric := load_dim_metric df }

/-- `get_load_statistics`: COUNT(*) of each table. -/
def get_load_statistics (db : DB) : Stats :=
  { staging := db.staging.length
    areas := db.dim_area.length
    time_periods := db.dim_time_period.length
    metrics := db.dim_metric.length
    facts := db.fact_temperature.length }

/-- `load_data`: staging, dimensions, facts, statistics.  The connection
test and the analytics-view refresh touch no modelled state. -/
def load_data (batchSize : Nat) (df : List ClassifiedRecord) (db : DB) :
    Except String (DB × Stats) := do
  let db1 := load_to_staging batchSize df db
  let db2 ← load_dimensions df db1
  let db3 : DB := { db2 with
    fact_temperature :=
      load_facts db2.staging db2.dim_area db2.dim_time_period db2.dim_metric }
  Except.ok (db3, get_load_statistics db3)

/-- The transform-plus-load pipeline of `run_pipeline` on an already
extracted frame. -/
def pipeline (batchSize : Nat) (df : WideDF) (db : DB) :
    Except String (DB × Stats) := do
  let t ← transform_data df
  load_data batchSize t db

/-- Image of one melted cell (label, identifiers, value) in the long
frame, with the year extracted from the label. -/
def meltCell (cell : String × RawIds × Option ℚ) : LongRecord :=
  renameToLong cell.2.1 ((parseYear cell.1).getD 0) cell.2.2

/-- The attribute tuple a `dim_area` row was built from. -/
def areaRowTuple (r : AreaRow) : String × String × String × String :=
  (r.area_code, r.m49_code, r.area_name, r.area_type)

/-- The attribute tuple a `dim_time_period` row was built from. -/
def periodRowTuple (r : PeriodRow) :
    String × String × String × Option Nat × Option Nat :=
  (r.period_code, r.period_name, r.period_type, r.month_number, r.quarter)

/-- The attribute tuple a `dim_metric` row was built from. -/
def metricRowTuple (r : MetricRow) : String × String × String :=
  (r.metric_code, r.metric_name, r.unit)

/-- A sample classified record used by concrete witnesses. -/
def sampleRecord : ClassifiedRecord :=
  { area_code := "2"
    m49_code := "4"
    area_name := "Afghanistan"
    months_code := "7001"
    period_name := "January"
    element_code := "7271"
    element_name := "Temperature change"
    unit := "°C"
    year := 2000
    value := some 1
    area_type := "country"
    period_type := "month"
    month_number := some 1
    quarter := none }

/-- Concrete transformed records exercising the hierarchy fixup: one world
row, one continent, one subregion with a configured parent, and one
subregion-typed row with no configured parent. -/
def hierSample : List ClassifiedRecord :=
  [ { sampleRecord with area_name := "World", area_type := "world" },
    { sampleRecord with m49_code := "02", area_name := "Africa", area_type := "continent" },
    { sampleRecord with m49_code := "014", area_name := "Eastern Africa", area_type := "subregion" },
    { sampleRecord with m49_code := "999", area_name := "Atlantis", area_type := "subregion" } ]

/-- The area dimension produced from `hierSample` after the hierarchy
fixup. -/
def hierSampleOut : List AreaRow :=
  [ { area_key := 1, area_code := "2", m49_code := "4",
      area_name := "World", area_type := "world", parent_area_key := none },
    { area_key := 2, area_code := "2", m49_code := "02",
      area_name := "Africa", area_type := "continent",
      parent_area_key := some 1 },
    { area_key := 3, area_code := "2", m49_code := "014",
      area_name := "Eastern Africa", area_type := "subregion",
      parent_area_key := some 2 },
    { area_key := 4, area_code := "2", m49_code := "999",
      area_name := "Atlantis", area_type := "subregion",
      parent_area_key := none } ]

/-- A one-row wide frame with two year columns, used by concrete
witnesses of the whole pipeline. -/
def wideSample : WideDF :=
  { yearCols := ["Y2000", "Y2001"],
    rows := [(⟨"5000", "001", "World", "7001", "January", "7271",
      "Temperature change", "°C"⟩, [some 1, none])] }

/-- The warehouse state a pipeline run on `wideSample` produces. -/
def wideSampleDB : DB :=
  { staging :=
      [ ⟨"5000", "001", "World", "7001", "January", "7271",
         "Temperature change", "°C", 2000, some 1⟩,
        ⟨"5000", "001", "World", "7001", "January", "7271",
         "Temperature change", "°C", 2001, none⟩ ],
    dim_area := [⟨1, "5000", "001", "World", "world", none⟩],
    dim_time_period := [⟨1, "7001", "January", "month", some 1, none⟩],
    dim_metric := [⟨1, "7271", "Temperature change", "°C"⟩],
    fact_temperature :=
      [⟨1, 1, 1, 2000, some 1⟩, ⟨1, 1, 1, 2001, none⟩] }

/-- The row counts a pipeline run on `wideSample` reports. -/
def wideSampleStats : Stats := ⟨2, 1, 1, 1, 2⟩

/-! ## Helper lemmas -/

theorem lookup_eq_none_of_not_mem {α β : Type} [DecidableEq α]
    (l : List (α × β)) (a : α) (h : a ∉ l.map Prod.fst) : l.lookup a = none := by
  induction l with
  | nil => rfl
  | cons p t ih =>
    simp only [List.map_cons, List.mem_cons, not_or] at h
    simp [List.lookup, beq_eq_false_iff_ne.mpr h.1, ih h.2]

theorem mem_of_lookup_eq_some {α β : Type} [DecidableEq α]
    (l : List (α × β)) (a : α) (b : β) (h : l.lookup a = some b) : (a, b) ∈ l := by
  induction l with
  | nil => simp [List.lookup] at h
  | cons p t ih =>
    obtain ⟨x, y⟩ := p
    by_cases hpa : a = x
    · subst hpa
      simp [List.lookup] at h
      simp [h]
    · simp [List.lookup, beq_eq_false_iff_ne.mpr hpa] at h
      exact List.mem_cons_of_mem _ (ih h)

theorem findTypeIn_eq_none_iff (m : List (String × List String)) (n : String) :
    findTypeIn m n = none ↔ ∀ p ∈ m, n ∉ p.2 := by
  simp [findTypeIn, List.find?_eq_none, List.elem_iff]

theorem findTypeIn_eq_some (m : List (String × List String)) (n t : String)
    (h : findTypeIn m n = some t) : ∃ l, (t, l) ∈ m ∧ n ∈ l := by
  simp only [findTypeIn, Option.map_eq_some'] at h
  obtain ⟨p, hp, hpt⟩ := h
  refine ⟨p.2, ?_, ?_⟩
  · rw [← hpt]
    exact List.mem_of_find?_eq_some hp
  · have := List.find?_some hp
    simpa [List.elem_iff] using this

theorem classify_period_of_mem_month (s : String)
    (h : pyStrip s ∈ MONTH_NAMES) : classify_period s = Except.ok "month" := by
  have hc : MONTH_NAMES.contains (pyStrip s) = true := List.elem_iff.mpr h
  simp [classify_period, findTypeIn, PERIOD_TYPE_MAPPING, List.find?, hc, h]

theorem classify_period_of_mem_season (s : String)
    (h : pyStrip s ∈ SEASON_NAMES) : classify_period s = Except.ok "season" := by
  have hm : pyStrip s ∉ MONTH_NAMES := by
    intro hmem
    exact absurd h ((by decide : ∀ x ∈ MONTH_NAMES, x ∉ SEASON_NAMES) _ hmem)
  have hmc : MONTH_NAMES.contains (pyStrip s) = false := by
    simpa [List.elem_iff] using hm
  have hc : SEASON_NAMES.contains (pyStrip s) = true := List.elem_iff.mpr h
  simp [classify_period, findTypeIn, PERIOD_TYPE_MAPPING, List.find?, hc, hmc, h, hm]

theorem mapM_ok_of_forall {α β : Type} (f : α → Except String β) (g : α → β)
    (l : List α) (h : ∀ x ∈ l, f x = Except.ok (g x)) :
    l.mapM f = Except.ok (l.map g) := by
  induction l with
  | nil => rfl
  | cons a t ih =>
    rw [List.mapM_cons, h a (by simp), ih (fun x hx => h x (by simp [hx]))]
    rfl

theorem sum_map_const {α : Type} (l : List α) (k : Nat) :
    (l.map (fun _ => k)).sum = l.length * k := by
  induction l with
  | nil => simp
  | cons a t ih => simp [ih, Nat.succ_mul, Nat.add_comm]

theorem isDigit_ne_Y {c : Char} (h : c.isDigit = true) : ¬ c = 'Y' := by
  intro hc
  subst hc
  exact absurd h (by decide)

theorem parseYear_of_label {lbl : String} {ds : List Char}
    (hd : lbl.data = 'Y' :: ds) (hne : ds ≠ []) (hdig : ds.all Char.isDigit) :
    ∃ y, parseYear lbl = some y := by
  have hfil : lbl.data.filter (fun c => decide (c ≠ 'Y')) = ds := by
    rw [hd, List.filter_cons]
    simp only [decide_not, ne_eq, decide_eq_true_eq]
    rw [if_neg (by simp)]
    apply List.filter_eq_self.mpr
    intro c hc
    simpa using isDigit_ne_Y (by simpa using List.all_eq_true.mp hdig c hc)
  rw [parseYear, hfil, natOfDigits, if_pos ⟨hne, hdig⟩]
  exact ⟨_, rfl⟩

theorem startsWithY_of_label {lbl : String} {ds : List Char}
    (hd : lbl.data = 'Y' :: ds) : startsWithY lbl = true := by
  rw [startsWithY, hd]
  rfl

theorem yearInRange_iff (r : ClassifiedRecord) :
    yearInRange r = true ↔ MIN_YEAR ≤ r.year ∧ r.year ≤ MAX_YEAR := by
  simp [yearInRange]

theorem mem_dropDuplicates_go {α : Type} [DecidableEq α]
    (l : List α) (seen : List α) (a : α) :
    a ∈ dropDuplicates.go seen l ↔ a ∈ l ∧ a ∉ seen := by
  induction l generalizing seen with
  | nil => simp [dropDuplicates.go]
  | cons b t ih =>
    rw [dropDuplicates.go]
    by_cases hb : b ∈ seen
    · rw [if_pos hb, ih]
      constructor
      · rintro ⟨h1, h2⟩
        exact ⟨List.mem_cons_of_mem _ h1, h2⟩
      · rintro ⟨h1, h2⟩
        rcases List.mem_cons.mp h1 with heq | hmem
        · exact absurd (heq ▸ hb) h2
        · exact ⟨hmem, h2⟩
    · rw [if_neg hb]
      by_cases hab : a = b
      · subst hab
        simp [hb]
      · rw [List.mem_cons]
        simp only [hab, false_or, ih, List.mem_cons]

theorem nodup_dropDuplicates_go {α : Type} [DecidableEq α]
    (l : List α) (seen : List α) : (dropDuplicates.go seen l).Nodup := by
  induction l generalizing seen with
  | nil => exact List.nodup_nil
  | cons b t ih =>
    rw [dropDuplicates.go]
    by_cases hb : b ∈ seen
    · rw [if_pos hb]
      exact ih seen
    · rw [if_neg hb]
      refine List.nodup_cons.mpr ⟨?_, ih (b :: seen)⟩
      intro hmem
      exact absurd (List.mem_cons_self b seen)
        ((mem_dropDuplicates_go t (b :: seen) b).mp hmem).2

theorem mem_dropDuplicates {α : Type} [DecidableEq α] (l : List α) (a : α) :
    a ∈ dropDuplicates l ↔ a ∈ l := by
  rw [dropDuplicates, mem_dropDuplicates_go]
  simp

theorem nodup_dropDuplicates {α : Type} [DecidableEq α] (l : List α) :
    (dropDuplicates l).Nodup :=
  nodup_dropDuplicates_go l []

theorem load_dim_area_rows_tuples (df : List ClassifiedRecord) :
    (load_dim_area_rows df).map areaRowTuple =
      dropDuplicates (df.map areaTuple) := by
  rw [load_dim_area_rows, List.map_map]
  exact List.enum_map_snd _

theorem load_dim_time_period_tuples (df : List ClassifiedRecord) :
    (load_dim_time_period df).map periodRowTuple =
      dropDuplicates (df.map periodTuple) := by
  rw [load_dim_time_period, List.map_map]
  exact List.enum_map_snd _

theorem load_dim_metric_tuples (df : List ClassifiedRecord) :
    (load_dim_metric df).map metricRowTuple =
      dropDuplicates (df.map metricTuple) := by
  rw [load_dim_metric, List.map_map]
  exact List.enum_map_snd _

/-! ## Claims -/

/-- C4: for every input, `classify_period` raises exactly when the trimmed
name is in none of the configured month, season and annual sets (for
example on "Foo"), whereas `classify_area` never raises: it always returns
one of the four area types, and an unrecognized name yields "country". -/
theorem C4_classify_period_error_iff_unconfigured :
    (∀ s : String,
        (∃ e, classify_period s = Except.error e) ↔
          ∀ p ∈ PERIOD_TYPE_MAPPING, pyStrip s ∉ p.2) ∧
    (∃ e, classify_period "Foo" = Except.error e) ∧
    (∀ s : String,
        classify_area s ∈ ["world", "continent", "subregion", "country"]) ∧
    (∀ s : String, (∀ p ∈ AREA_TYPE_MAPPING, pyStrip s ∉ p.2) →
        classify_area s = "country") := by
  refine ⟨?_, ?_, ?_, ?_⟩
  · intro s
    constructor
    · rintro ⟨e, he⟩
      rw [classify_period] at he
      cases hf : findTypeIn PERIOD_TYPE_MAPPING (pyStrip s) with
      | some t => rw [hf] at he; exact absurd he (by simp)
      | none => exact (findTypeIn_eq_none_iff _ _).mp hf
    · intro hall
      rw [classify_period, (findTypeIn_eq_none_iff _ _).mpr hall]
      exact ⟨_, rfl⟩
  · exact ⟨"Unknown period name: Foo", by decide⟩
  · intro s
    rw [classify_area]
    cases hf : findTypeIn AREA_TYPE_MAPPING (pyStrip s) with
    | some t =>
      obtain ⟨l, hmem, -⟩ := findTypeIn_eq_some _ _ _ hf
      simp only [AREA_TYPE_MAPPING, List.mem_cons, List.not_mem_nil,
        or_false, Prod.mk.injEq] at hmem
      rcases hmem with ⟨h1, -⟩ | ⟨h1, -⟩ | ⟨h1, -⟩ <;> simp [h1]
    | none => simp
  · intro s hall
    rw [classify_area, (findTypeIn_eq_none_iff _ _).mpr hall]

/-- Witness for C4 at the concrete inputs "Foo" and "Atlantis". -/
theorem C4_witness :
    (∃ e, classify_period "Foo" = Except.error e) ∧
    classify_area "Atlantis" = "country" :=
  ⟨C4_classify_period_error_iff_unconfigured.2.1,
   C4_classify_period_error_iff_unconfigured.2.2.2 "Atlantis" (by decide)⟩

/-- C5: every configured month name yields period type "month" with a month
number in 1..12 and no quarter; every configured season spelling yields
period type "season" with a quarter in 1..4 and no month number; the annual
label yields "annual" with neither; and the plain-hyphen and en-dash
spellings of the same quarter yield identical attributes, in particular an
identical quarter number. -/
theorem C5_period_attributes_match_source_lists :
    (∀ n ∈ MONTH_NAMES, ∃ k,
        get_period_attributes n = Except.ok ⟨"month", some k, none⟩ ∧
        1 ≤ k ∧ k ≤ 12) ∧
    (∀ n ∈ SEASON_NAMES, ∃ k,
        get_period_attributes n = Except.ok ⟨"season", none, some k⟩ ∧
        1 ≤ k ∧ k ≤ 4) ∧
    (∀ n ∈ ANNUAL_NAMES,
        get_period_attributes n = Except.ok ⟨"annual", none, none⟩) ∧
    get_period_attributes "December-January-February" =
      get_period_attributes "Dec–Jan–Feb" ∧
    get_period_attributes "March-April-May" =
      get_period_attributes "Mar–Apr–May" ∧
    get_period_attributes "June-July-August" =
      get_period_attributes "Jun–Jul–Aug" ∧
    get_period_attributes "September-October-November" =
      get_period_attributes "Sep–Oct–Nov" := by
  refine ⟨?_, ?_, by decide, by decide, by decide, by decide, by decide⟩
  · intro n hn
    obtain ⟨k, hk, h1, he⟩ :=
      (by decide : ∀ n ∈ MONTH_NAMES, ∃ k ∈ List.range 13, 1 ≤ k ∧
        get_period_attributes n = Except.ok ⟨"month", some k, none⟩) n hn
    exact ⟨k, he, h1, by have := List.mem_range.mp hk; omega⟩
  · intro n hn
    obtain ⟨k, hk, h1, he⟩ :=
      (by decide : ∀ n ∈ SEASON_NAMES, ∃ k ∈ List.range 5, 1 ≤ k ∧
        get_period_attributes n = Except.ok ⟨"season", none, some k⟩) n hn
    exact ⟨k, he, h1, by have := List.mem_range.mp hk; omega⟩

/-- Witness for C5 at the concrete inputs "January" and "Dec–Jan–Feb". -/
theorem C5_witness :
    (∃ k, get_period_attributes "January" =
        Except.ok ⟨"month", some k, none⟩ ∧ 1 ≤ k ∧ k ≤ 12) ∧
    (∃ k, get_period_attributes "Dec–Jan–Feb" =
        Except.ok ⟨"season", none, some k⟩ ∧ 1 ≤ k ∧ k ≤ 4) :=
  ⟨C5_period_attributes_match_source_lists.1 "January" (by decide),
   C5_period_attributes_match_source_lists.2.1 "Dec–Jan–Feb" (by decide)⟩

/-- C6 counterexample: the configured subregion membership list enumerates
22 subregions, not 20 as the claim states. -/
theorem C6_counterexample :
    SUBREGION_NAMES.length = 22 ∧ ¬ SUBREGION_NAMES.length = 20 := by decide

/-- C6 (amended): `get_parent_area` returns none for type "world", "World"
for type "continent", the lookup in the fixed subregion-to-continent table
for type "subregion" — the table covering all 22 (not 20) enumerated
subregions, so every configured subregion name gets some continent
parent — and none for type "country". -/
theorem C6_get_parent_area_by_type :
    (∀ n : String, get_parent_area n "world" = none) ∧
    (∀ n : String, get_parent_area n "continent" = some "World") ∧
    (∀ n : String,
        get_parent_area n "subregion" = SUBREGION_TO_CONTINENT.lookup n) ∧
    SUBREGION_NAMES.length = 22 ∧
    (∀ n ∈ SUBREGION_NAMES, ∃ c, get_parent_area n "subregion" = some c) ∧
    (∀ n : String, get_parent_area n "country" = none) := by
  refine ⟨?_, ?_, ?_, by decide, ?_, ?_⟩
  · intro n; rw [get_parent_area, if_pos rfl]
  · intro n
    rw [get_parent_area, if_neg (by decide), if_pos rfl]
  · intro n
    rw [get_parent_area, if_neg (by decide), if_neg (by decide), if_pos rfl]
  · intro n hn
    have h := (by decide : ∀ n ∈ SUBREGION_NAMES,
      (SUBREGION_TO_CONTINENT.lookup n).isSome = true) n hn
    obtain ⟨c, hc⟩ := Option.isSome_iff_exists.mp h
    refine ⟨c, ?_⟩
    rw [get_parent_area, if_neg (by decide), if_neg (by decide), if_pos rfl, hc]
  · intro n
    rw [get_parent_area, if_neg (by decide), if_neg (by decide),
      if_neg (by decide)]

/-- Witness for C6 at the concrete inputs "Eastern Africa" and "France". -/
theorem C6_witness :
    (∃ c, get_parent_area "Eastern Africa" "subregion" = some c) ∧
    get_parent_area "France" "country" = none :=
  ⟨C6_get_parent_area_by_type.2.2.2.2.1 "Eastern Africa" (by decide),
   C6_get_parent_area_by_type.2.2.2.2.2 "France"⟩

/-- C10: `get_period_attributes` trims only for classification.  An input
that is character-for-character equal to no configured name but whose
trimmed form is a configured month (resp. season) name succeeds with period
type "month" (resp. "season") yet carries no month number and no quarter,
because `get_month_number` and `get_quarter` match the untrimmed input. -/
theorem C10_attributes_trim_only_for_classification :
    (∀ s : String, pyStrip s ∈ MONTH_NAMES →
        (∀ p ∈ PERIOD_TYPE_MAPPING, s ∉ p.2) →
        get_period_attributes s = Except.ok ⟨"month", none, none⟩) ∧
    (∀ s : String, pyStrip s ∈ SEASON_NAMES →
        (∀ p ∈ PERIOD_TYPE_MAPPING, s ∉ p.2) →
        get_period_attributes s = Except.ok ⟨"season", none, none⟩) := by
  have keysM : MONTH_TO_NUMBER.map Prod.fst = MONTH_NAMES := by decide
  have keysS : SEASON_TO_QUARTER.map Prod.fst = SEASON_NAMES := by decide
  have hnum : ∀ s : String, (∀ p ∈ PERIOD_TYPE_MAPPING, s ∉ p.2) →
      get_month_number s = none ∧ get_quarter s = none := by
    intro s hs
    constructor
    · apply lookup_eq_none_of_not_mem
      rw [keysM]
      exact hs ("month", MONTH_NAMES) (by decide)
    · apply lookup_eq_none_of_not_mem
      rw [keysS]
      exact hs ("season", SEASON_NAMES) (by decide)
  constructor
  · intro s h1 h2
    obtain ⟨hm, hq⟩ := hnum s h2
    rw [get_period_attributes]
    rw [classify_period_of_mem_month s h1]
    simp only [hm, hq]
    rfl
  · intro s h1 h2
    obtain ⟨hm, hq⟩ := hnum s h2
    rw [get_period_attributes]
    rw [classify_period_of_mem_season s h1]
    simp only [hm, hq]
    rfl

/-- C7: on a frame of R rows whose year columns are each labelled by the
letter Y followed by year digits, `unpivot_years` succeeds and produces
exactly R × N long records; each output record carries the identifier
columns of its source row unchanged (renamed to the staging schema), a year
equal to the integer extracted from its source column label, and the
matching source cell as value; conversely every row-column pair yields such
a record. -/
theorem C7_unpivot_years_shape (df : WideDF) (hwf : df.wf)
    (hY : ∀ lbl ∈ df.yearCols,
      ∃ ds, lbl.data = 'Y' :: ds ∧ ds ≠ [] ∧ ds.all Char.isDigit) :
    ∃ recs, unpivot_years df = Except.ok recs ∧
      recs.length = df.rows.length * df.yearCols.length ∧
      (∀ rec ∈ recs, ∃ row ∈ df.rows, ∃ i, ∃ hi : i < df.yearCols.length,
        parseYear (df.yearCols.get ⟨i, hi⟩) = some rec.year ∧
        rec.value = row.2.getD i none ∧
        rec.area_code = row.1.area_code ∧ rec.m49_code = row.1.m49_code ∧
        rec.area_name = row.1.area_name ∧ rec.months_code = row.1.months_code ∧
        rec.period_name = row.1.months ∧ rec.element_code = row.1.element_code ∧
        rec.element_name = row.1.element ∧ rec.unit = row.1.unit) ∧
      (∀ row ∈ df.rows, ∀ i, ∀ hi : i < df.yearCols.length, ∃ y,
        parseYear (df.yearCols.get ⟨i, hi⟩) = some y ∧
        renameToLong row.1 y (row.2.getD i none) ∈ recs) := by
  have hparse : ∀ p ∈ df.yearCols.enum, ∃ y, parseYear p.2 = some y := by
    intro p hp
    obtain ⟨ds, hd, hne, hdig⟩ := hY p.2 (List.snd_mem_of_mem_enum hp)
    exact parseYear_of_label hd hne hdig
  have hfilter :
      (df.yearCols.enum).filter (fun p => startsWithY p.2) = df.yearCols.enum := by
    apply List.filter_eq_self.mpr
    intro p hp
    obtain ⟨ds, hd, -, -⟩ := hY p.2 (List.snd_mem_of_mem_enum hp)
    exact startsWithY_of_label hd
  have hmelt : ∀ cell ∈ (df.yearCols.enum).flatMap (fun p =>
      df.rows.map (fun r => (p.2, r.1, r.2.getD p.1 none))),
      ∃ p ∈ df.yearCols.enum, ∃ row ∈ df.rows,
        cell = (p.2, row.1, row.2.getD p.1 none) := by
    intro cell hcell
    rw [List.mem_flatMap] at hcell
    obtain ⟨p, hp, hc⟩ := hcell
    rw [List.mem_map] at hc
    obtain ⟨row, hrow, hc⟩ := hc
    exact ⟨p, hp, row, hrow, hc.symm⟩
  have hok : unpivot_years df = Except.ok
      (((df.yearCols.enum).flatMap (fun p =>
        df.rows.map (fun r => (p.2, r.1, r.2.getD p.1 none)))).map meltCell) := by
    rw [unpivot_years, hfilter]
    apply mapM_ok_of_forall
    intro cell hcell
    obtain ⟨p, hp, row, hrow, hc⟩ := hmelt cell hcell
    obtain ⟨y, hy⟩ := hparse p hp
    subst hc
    simp only [hy, meltCell, Option.getD_some]
  refine ⟨_, hok, ?_, ?_, ?_⟩
  · rw [List.length_map, List.length_flatMap]
    have : ∀ p : Nat × String,
        (df.rows.map (fun r => (p.2, r.1, r.2.getD p.1 none))).length =
          df.rows.length := by
      intro p
      rw [List.length_map]
    calc ((df.yearCols.enum).map (fun p =>
          (df.rows.map (fun r => (p.2, r.1, r.2.getD p.1 none))).length)).sum
        = ((df.yearCols.enum).map (fun _ => df.rows.length)).sum := by
          exact congrArg List.sum (List.map_congr_left (fun p _ => this p))
      _ = df.yearCols.enum.length * df.rows.length := sum_map_const _ _
      _ = df.rows.length * df.yearCols.length := by
          rw [List.enum_length, Nat.mul_comm]
  · intro rec hrec
    rw [List.mem_map] at hrec
    obtain ⟨cell, hcell, hrc⟩ := hrec
    obtain ⟨p, hp, row, hrow, hc⟩ := hmelt cell hcell
    obtain ⟨y, hy⟩ := hparse p hp
    obtain ⟨i, lbl⟩ := p
    have hget := List.mk_mem_enum_iff_get?.mp hp
    have hi : i < df.yearCols.length := List.fst_lt_of_mem_enum hp
    have hlbl : df.yearCols.get ⟨i, hi⟩ = lbl := by
      have := List.get?_eq_get hi
      rw [hget] at this
      exact (Option.some_inj.mp this).symm
    subst hc
    subst hrc
    refine ⟨row, hrow, i, hi, ?_, ?_, rfl, rfl, rfl, rfl, rfl, rfl, rfl, rfl⟩
    · rw [hlbl]
      simp only [meltCell, renameToLong] at hy ⊢
      rw [hy]
      rfl
    · rfl
  · intro row hrow i hi
    have hp : (i, df.yearCols.get ⟨i, hi⟩) ∈ df.yearCols.enum := by
      rw [List.mk_mem_enum_iff_get?]
      exact List.get?_eq_get hi
    obtain ⟨y, hy⟩ := hparse _ hp
    refine ⟨y, hy, ?_⟩
    rw [List.mem_map]
    refine ⟨(df.yearCols.get ⟨i, hi⟩, row.1, row.2.getD i none), ?_, ?_⟩
    · rw [List.mem_flatMap]
      exact ⟨_, hp, List.mem_map.mpr ⟨row, hrow, rfl⟩⟩
    · simp only [meltCell, hy, Option.getD_some]

/-- Witness for C7: one row with year columns Y2000 and Y2001 yields
exactly 2 long records. -/
theorem C7_witness : ∃ recs,
    unpivot_years ⟨["Y2000", "Y2001"],
      [(⟨"2", "4", "Afghanistan", "7001", "January", "7271",
         "Temperature change", "°C"⟩, [some 1, none])]⟩ =
      Except.ok recs ∧ recs.length = 2 := by
  obtain ⟨recs, h1, h2, -⟩ := C7_unpivot_years_shape
    ⟨["Y2000", "Y2001"],
      [(⟨"2", "4", "Afghanistan", "7001", "January", "7271",
         "Temperature change", "°C"⟩, [some 1, none])]⟩
    (by intro r hr; simp at hr; rw [hr]; rfl)
    (by
      intro lbl hlbl
      simp only [List.mem_cons, List.not_mem_nil, or_false] at hlbl
      rcases hlbl with h | h <;> subst h
      · exact ⟨['2', '0', '0', '0'], rfl, by decide, by decide⟩
      · exact ⟨['2', '0', '0', '1'], rfl, by decide, by decide⟩)
  exact ⟨recs, h1, by rw [h2]; rfl⟩

/-- Witness for C10 at the concrete inputs " January" and "Mar–Apr–May "
(configured names with extra surrounding whitespace). -/
theorem C10_witness :
    get_period_attributes " January" = Except.ok ⟨"month", none, none⟩ ∧
    get_period_attributes "Mar–Apr–May " = Except.ok ⟨"season", none, none⟩ :=
  ⟨C10_attributes_trim_only_for_classification.1 " January"
      (by decide) (by decide),
   C10_attributes_trim_only_for_classification.2 "Mar–Apr–May "
      (by decide) (by decide)⟩

/-- C8: `validate_data` retains exactly the records whose year lies in
[MIN_YEAR, MAX_YEAR]; within that window, "Temperature change" records
whose value falls outside [MIN_TEMP_CHANGE, MAX_TEMP_CHANGE] are retained
(only warned about), and null-valued records are counted but never
dropped. -/
theorem C8_validate_data_filters_years_only (l : List ClassifiedRecord) :
    (∀ r, r ∈ validate_data l ↔
        r ∈ l ∧ MIN_YEAR ≤ r.year ∧ r.year ≤ MAX_YEAR) ∧
    (∀ r ∈ l, MIN_YEAR ≤ r.year → r.year ≤ MAX_YEAR →
        r.element_name = "Temperature change" →
        ∀ v, r.value = some v →
        (v < MIN_TEMP_CHANGE ∨ v > MAX_TEMP_CHANGE) →
        r ∈ validate_data l) ∧
    (∀ r ∈ l, MIN_YEAR ≤ r.year → r.year ≤ MAX_YEAR → r.value = none →
        r ∈ validate_data l) := by
  have hmain : ∀ r, r ∈ validate_data l ↔
      r ∈ l ∧ MIN_YEAR ≤ r.year ∧ r.year ≤ MAX_YEAR := by
    intro r
    rw [validate_data]
    by_cases hinv : (l.filter (fun r => !(yearInRange r))).length > 0
    · rw [if_pos hinv, List.mem_filter, yearInRange_iff]
    · rw [if_neg hinv]
      have hall : ∀ x ∈ l, yearInRange x = true := by
        intro x hx
        have hnil : l.filter (fun r => !(yearInRange r)) = [] :=
          List.length_eq_zero.mp (Nat.eq_zero_of_not_pos hinv)
        have := List.filter_eq_nil.mp hnil x hx
        simpa using this
      constructor
      · intro hr
        have := (yearInRange_iff r).mp (hall r hr)
        exact ⟨hr, this.1, this.2⟩
      · exact fun h => h.1
  exact ⟨hmain,
    fun r hr h1 h2 _ _ _ _ => (hmain r).mpr ⟨hr, h1, h2⟩,
    fun r hr h1 h2 _ => (hmain r).mpr ⟨hr, h1, h2⟩⟩

/-- Witness for C8: a record with year 1500 is dropped, a record with year
2000 is retained, and a "Temperature change" record valued 50 is retained
despite exceeding the upper bound of 20. -/
theorem C8_witness :
    ({ sampleRecord with value := some 50 } ∈
        validate_data [{ sampleRecord with year := 1500 },
          { sampleRecord with value := some 50 }]) ∧
    ({ sampleRecord with year := 1500 } ∉
        validate_data [{ sampleRecord with year := 1500 },
          { sampleRecord with value := some 50 }]) := by
  constructor
  · exact (C8_validate_data_filters_years_only
      [{ sampleRecord with year := 1500 },
        { sampleRecord with value := some 50 }]).2.1
      { sampleRecord with value := some 50 } (by decide) (by decide)
      (by decide) (by decide) 50 (by decide) (Or.inr (by decide))
  · intro h
    have := ((C8_validate_data_filters_years_only
      [{ sampleRecord with year := 1500 },
        { sampleRecord with value := some 50 }]).1
      { sampleRecord with year := 1500 }).mp h
    exact absurd this.2.1 (by decide)

/-- C9: each dimension load inserts one row per distinct full projected
attribute tuple of the transformed frame — the inserted rows carry
pairwise-distinct tuples, and a tuple appears among them exactly when some
transformed record projects to it.  Deduplication is therefore by the whole
tuple, not by natural key alone. -/
theorem C9_dimensions_dedup_full_tuple (df : List ClassifiedRecord) :
    ((load_dim_area_rows df).map areaRowTuple).Nodup ∧
    (∀ t, t ∈ (load_dim_area_rows df).map areaRowTuple ↔
        t ∈ df.map areaTuple) ∧
    ((load_dim_time_period df).map periodRowTuple).Nodup ∧
    (∀ t, t ∈ (load_dim_time_period df).map periodRowTuple ↔
        t ∈ df.map periodTuple) ∧
    ((load_dim_metric df).map metricRowTuple).Nodup ∧
    (∀ t, t ∈ (load_dim_metric df).map metricRowTuple ↔
        t ∈ df.map metricTuple) := by
  refine ⟨?_, ?_, ?_, ?_, ?_, ?_⟩
  · rw [load_dim_area_rows_tuples]
    exact nodup_dropDuplicates _
  · intro t
    rw [load_dim_area_rows_tuples, mem_dropDuplicates]
  · rw [load_dim_time_period_tuples]
    exact nodup_dropDuplicates _
  · intro t
    rw [load_dim_time_period_tuples, mem_dropDuplicates]
  · rw [load_dim_metric_tuples]
    exact nodup_dropDuplicates _
  · intro t
    rw [load_dim_metric_tuples, mem_dropDuplicates]

/-- Witness for C9: two records with identical area attributes yield an
area dimension whose tuples are distinct and still contain that shared
tuple (exactly one row), while two records equal in natural key but
differing in area name contribute two distinct tuples. -/
theorem C9_witness :
    (((load_dim_area_rows [sampleRecord, sampleRecord]).map
        areaRowTuple).Nodup ∧
      areaTuple sampleRecord ∈
        (load_dim_area_rows [sampleRecord, sampleRecord]).map areaRowTuple) ∧
    (areaTuple { sampleRecord with area_name := "Afganistan" } ∈
        (load_dim_area_rows
          [sampleRecord, { sampleRecord with area_name := "Afganistan" }]).map
          areaRowTuple) :=
  ⟨⟨(C9_dimensions_dedup_full_tuple [sampleRecord, sampleRecord]).1,
    ((C9_dimensions_dedup_full_tuple [sampleRecord, sampleRecord]).2.1
      _).mpr (by decide)⟩,
   ((C9_dimensions_dedup_full_tuple
      [sampleRecord, { sampleRecord with area_name := "Afganistan" }]).2.1
      _).mpr (by decide)⟩

/-- C2: after `load_facts`, a fact row exists exactly for those staged rows
whose three natural keys each match a dimension row — m49 code against the
area dimension, period (months) code against the time-period dimension,
metric (element) code against the metric dimension — and it carries the
surrogate keys of the matched dimension rows plus the staged year and
value; staged rows failing any of the three matches produce no fact row. -/
theorem C2_load_facts_join_membership (stage : List LongRecord)
    (dimA : List AreaRow) (dimP : List PeriodRow) (dimM : List MetricRow) :
    ∀ f, f ∈ load_facts stage dimA dimP dimM ↔
      ∃ s ∈ stage, ∃ a ∈ dimA, ∃ p ∈ dimP, ∃ m ∈ dimM,
        s.m49_code = a.m49_code ∧ s.months_code = p.period_code ∧
        s.element_code = m.metric_code ∧
        f = ⟨a.area_key, p.period_key, m.metric_key, s.year, s.value⟩ := by
  intro f
  rw [load_facts]
  simp only [List.mem_flatMap, List.mem_map, List.mem_filter, beq_iff_eq]
  constructor
  · rintro ⟨s, hs, a, ⟨ha, ha2⟩, p, ⟨hp, hp2⟩, m, ⟨hm, hm2⟩, hf⟩
    exact ⟨s, hs, a, ha, p, hp, m, hm, ha2, hp2, hm2, hf.symm⟩
  · rintro ⟨s, hs, a, ha, p, hp, m, hm, ha2, hp2, hm2, hf⟩
    exact ⟨s, hs, a, ⟨ha, ha2⟩, p, ⟨hp, hp2⟩, m, ⟨hm, hm2⟩, hf.symm⟩

/-- Witness for C2: a fully matching staged row produces the fact row with
the resolved surrogate keys, year and value. -/
theorem C2_witness :
    (⟨7, 8, 9, 2000, some 1⟩ : FactRow) ∈ load_facts
      [sampleRecord.toLongRecord]
      [⟨7, "2", "4", "Afghanistan", "country", none⟩]
      [⟨8, "7001", "January", "month", some 1, none⟩]
      [⟨9, "7271", "Temperature change", "°C"⟩] :=
  (C2_load_facts_join_membership [sampleRecord.toLongRecord]
      [⟨7, "2", "4", "Afghanistan", "country", none⟩]
      [⟨8, "7001", "January", "month", some 1, none⟩]
      [⟨9, "7271", "Temperature change", "°C"⟩]
      ⟨7, 8, 9, 2000, some 1⟩).mpr
    ⟨sampleRecord.toLongRecord, by decide,
     ⟨7, "2", "4", "Afghanistan", "country", none⟩, by decide,
     ⟨8, "7001", "January", "month", some 1, none⟩, by decide,
     ⟨9, "7271", "Temperature change", "°C"⟩, by decide,
     by decide, by decide, by decide, by decide⟩

theorem skelA_continentUpdate (wk : Option Nat) (r : AreaRow) :
    skelA (continentUpdate wk r) = skelA r := by
  rw [continentUpdate]
  by_cases h : r.area_type == "continent"
  · rw [if_pos h]
    rfl
  · rw [if_neg h]

theorem map_skelA_continentUpdate (wk : Option Nat) (rows : List AreaRow) :
    (rows.map (continentUpdate wk)).map skelA = rows.map skelA := by
  rw [List.map_map]
  exact List.map_congr_left (fun r _ => skelA_continentUpdate wk r)

theorem continentKeys_congr_of_skel {l l2 : List AreaRow}
    (h : l.map skelA = l2.map skelA) (c : String) :
    continentKeys l c = continentKeys l2 c := by
  induction l generalizing l2 with
  | nil =>
    have : l2 = [] := by
      have h2 := congrArg List.length h
      simpa using (List.length_eq_zero.mp h2.symm)
    rw [this]
  | cons r t ih =>
    cases l2 with
    | nil => simp at h
    | cons r2 t2 =>
      simp only [List.map_cons, List.cons.injEq] at h
      obtain ⟨h1, h2⟩ := h
      have hname : r.area_name = r2.area_name :=
        congrArg (fun x => x.2.2.2.1) h1
      have htype : r.area_type = r2.area_type :=
        congrArg (fun x => x.2.2.2.2) h1
      have hkey : r.area_key = r2.area_key := congrArg (fun x => x.1) h1
      have ih2 := ih h2
      rw [continentKeys, continentKeys] at ih2 ⊢
      rw [List.filter_cons, List.filter_cons, hname, htype]
      by_cases hc : (r2.area_name == c && r2.area_type == "continent") = true
      · rw [if_pos hc, if_pos hc, List.map_cons, List.map_cons, hkey, ih2]
      · rw [if_neg hc, if_neg hc, ih2]

theorem subregionStep_eval (acc : List AreaRow) (key : Nat) (name : String) :
    subregionStep acc (key, name) =
      match get_parent_area name "subregion" with
      | none => Except.ok acc
      | some parent =>
        match scalarSubquery (continentKeys acc parent) with
        | Except.error e => Except.error e
        | Except.ok pk => Except.ok (acc.map (fun r =>
            if r.area_key == key then { r with parent_area_key := pk }
            else r)) := rfl

theorem subregionStep_ok {acc out : List AreaRow} {s : Nat × String}
    (h : subregionStep acc s = Except.ok out) :
    ∃ g : AreaRow → AreaRow, out = acc.map g ∧
      (∀ r, skelA (g r) = skelA r) ∧
      (∀ r, ¬ r.area_key = s.1 → g r = r) := by
  obtain ⟨key, name⟩ := s
  rw [subregionStep_eval] at h
  cases hp : get_parent_area name "subregion" with
  | none =>
    rw [hp] at h
    have h2 : Except.ok acc = Except.ok out := h
    injection h2 with hout
    exact ⟨id, by rw [← hout, List.map_id], fun r => rfl, fun r _ => rfl⟩
  | some parent =>
    rw [hp] at h
    have h2 : (match scalarSubquery (continentKeys acc parent) with
        | Except.error e => Except.error e
        | Except.ok pk => Except.ok (acc.map (fun r =>
            if r.area_key == key then { r with parent_area_key := pk }
            else r))) = Except.ok out := h
    cases hq : scalarSubquery (continentKeys acc parent) with
    | error e =>
      rw [hq] at h2
      have h3 : (Except.error e : Except String (List AreaRow)) =
          Except.ok out := h2
      exact absurd h3 (by simp)
    | ok pk =>
      rw [hq] at h2
      have h3 : Except.ok (acc.map (fun r =>
          if r.area_key == key then { r with parent_area_key := pk }
          else r)) = Except.ok out := h2
      injection h3 with hout
      refine ⟨fun r => if r.area_key == key then
        { r with parent_area_key := pk } else r, hout.symm, ?_, ?_⟩
      · intro r
        show skelA (if r.area_key == key then
          { r with parent_area_key := pk } else r) = skelA r
        by_cases hr : r.area_key == key
        · rw [if_pos hr]
          rfl
        · rw [if_neg hr]
      · intro r hr
        show (if r.area_key == key then
          { r with parent_area_key := pk } else r) = r
        rw [if_neg (by simpa using hr)]

theorem foldlM_subregionStep_skel {subs : List (Nat × String)}
    {acc out : List AreaRow}
    (h : subs.foldlM subregionStep acc = Except.ok out) :
    out.map skelA = acc.map skelA := by
  induction subs generalizing acc with
  | nil =>
    rw [List.foldlM_nil] at h
    injection h with hout
    rw [hout]
  | cons s t ih =>
    rw [List.foldlM_cons] at h
    cases hstep : subregionStep acc s with
    | error e =>
      rw [hstep] at h
      exact absurd (show (Except.error e : Except String (List AreaRow)) =
        Except.ok out from h) (by simp)
    | ok b =>
      rw [hstep] at h
      obtain ⟨g, hb, hskel, -⟩ := subregionStep_ok hstep
      have hbs : b.map skelA = acc.map skelA := by
        rw [hb, List.map_map]
        exact List.map_congr_left (fun r _ => hskel r)
      rw [ih h, hbs]

theorem foldlM_subregionStep_fix {subs : List (Nat × String)}
    {acc out : List AreaRow}
    (h : subs.foldlM subregionStep acc = Except.ok out)
    (i : Nat) (r : AreaRow) (hr : acc.get? i = some r)
    (hcond : ∀ s ∈ subs, r.area_key = s.1 →
      get_parent_area s.2 "subregion" = none) :
    out.get? i = some r := by
  induction subs generalizing acc with
  | nil =>
    rw [List.foldlM_nil] at h
    injection h with hout
    rw [hout] at hr
    exact hr
  | cons s t ih =>
    rw [List.foldlM_cons] at h
    cases hstep : subregionStep acc s with
    | error e =>
      rw [hstep] at h
      exact absurd (show (Except.error e : Except String (List AreaRow)) =
        Except.ok out from h) (by simp)
    | ok b =>
      rw [hstep] at h
      by_cases hks : r.area_key = s.1
      · have hnone := hcond s (List.mem_cons_self s t) hks
        rw [subregionStep, hnone] at hstep
        injection hstep with hb
        rw [← hb] at h
        exact ih h hr (fun x hx => hcond x (List.mem_cons_of_mem s hx))
      · obtain ⟨g, hb, -, hfix⟩ := subregionStep_ok hstep
        have hbr : b.get? i = some r := by
          rw [hb, List.get?_map, hr, Option.map_some', hfix r hks]
        exact ih h hbr (fun x hx => hcond x (List.mem_cons_of_mem s hx))

theorem load_dim_area_rows_keys_nodup (df : List ClassifiedRecord) :
    ((load_dim_area_rows df).map (fun r => r.area_key)).Nodup := by
  have h1 : (load_dim_area_rows df).map (fun r => r.area_key) =
      ((dropDuplicates (df.map areaTuple)).enum.map Prod.fst).map
        (fun n => n + 1) := by
    rw [load_dim_area_rows, List.map_map, List.map_map]
    rfl
  rw [h1, List.enum_map_fst]
  exact ((List.nodup_range _).map (fun a b hab => by omega))

theorem load_dim_area_rows_parent_none (df : List ClassifiedRecord) :
    ∀ r ∈ load_dim_area_rows df, r.parent_area_key = none := by
  intro r hr
  rw [load_dim_area_rows] at hr
  obtain ⟨p, -, hp⟩ := List.mem_map.mp hr
  rw [← hp]

theorem update_area_hierarchy_sound (rows out : List AreaRow) (w : Nat)
    (hnodup : (rows.map (fun r => r.area_key)).Nodup)
    (hinit : ∀ r ∈ rows, r.parent_area_key = none)
    (hw : (rows.filter (fun r => r.area_type == "world")).map
      (fun r => r.area_key) = [w])
    (hok : update_area_hierarchy rows = Except.ok out) :
    (∀ r ∈ out, r.area_type = "continent" → r.parent_area_key = some w) ∧
    (∀ r ∈ out, r.area_type = "subregion" → ∀ c k,
        get_parent_area r.area_name "subregion" = some c →
        continentKeys rows c = [k] →
        r.parent_area_key = some k) ∧
    (∀ r ∈ out, r.area_type = "subregion" →
        get_parent_area r.area_name "subregion" = none →
        r.parent_area_key = none) := by
  rw [update_area_hierarchy, hw] at hok
  have hok2 : (((rows.map (continentUpdate (some w))).filter
      (fun r => r.area_type == "subregion")).map
      (fun r => (r.area_key, r.area_name))).foldlM subregionStep
      (rows.map (continentUpdate (some w))) = Except.ok out := hok
  clear hok
  set rows1 := rows.map (continentUpdate (some w)) with hrows1
  set subs := (rows1.filter (fun r => r.area_type == "subregion")).map
    (fun r => (r.area_key, r.area_name)) with hsubs_def
  have hskel1 : rows1.map skelA = rows.map skelA :=
    map_skelA_continentUpdate (some w) rows
  have hkeys_exp : ∀ m : List AreaRow,
      m.map (fun r => r.area_key) = (m.map skelA).map (fun t => t.1) := by
    intro m
    rw [List.map_map]
    rfl
  have hkeys_eq : rows1.map (fun r => r.area_key) =
      rows.map (fun r => r.area_key) := by
    rw [hkeys_exp rows1, hkeys_exp rows, hskel1]
  have hnodup1 : (rows1.map (fun r => r.area_key)).Nodup := by
    rw [hkeys_eq]
    exact hnodup
  have hkey_inj : ∀ x ∈ rows1, ∀ y ∈ rows1, x.area_key = y.area_key → x = y :=
    fun x hx y hy => List.inj_on_of_nodup_map hnodup1 hx hy
  have hsub_of_mem : ∀ s ∈ subs, ∃ rs ∈ rows1, rs.area_type = "subregion" ∧
      s = (rs.area_key, rs.area_name) := by
    intro s hs
    rw [hsubs_def] at hs
    obtain ⟨rs, hrs, hse⟩ := List.mem_map.mp hs
    obtain ⟨hmem, htype⟩ := List.mem_filter.mp hrs
    exact ⟨rs, hmem, by simpa using htype, hse.symm⟩
  have hlen1 : rows1.length = rows.length := by
    rw [hrows1, List.length_map]
  have hlenout : out.length = rows1.length := by
    have h1 := congrArg List.length (foldlM_subregionStep_skel hok2)
    simpa using h1
  have hfield_type : ∀ {x y : AreaRow}, skelA x = skelA y →
      x.area_type = y.area_type :=
    fun h => congrArg (fun t => t.2.2.2.2) h
  have hfield_name : ∀ {x y : AreaRow}, skelA x = skelA y →
      x.area_name = y.area_name :=
    fun h => congrArg (fun t => t.2.2.2.1) h
  have hsrc : ∀ r ∈ out, ∃ (i : Nat) (r1 r0 : AreaRow),
      out.get? i = some r ∧ rows1.get? i = some r1 ∧ rows.get? i = some r0 ∧
      skelA r = skelA r1 ∧ r1 = continentUpdate (some w) r0 := by
    intro r hr
    obtain ⟨n, hget⟩ := List.mem_iff_get.mp hr
    have hio : out.get? n.1 = some r := by
      rw [List.get?_eq_get n.2, hget]
    have hi1 : n.1 < rows1.length := hlenout ▸ n.2
    have hi0 : n.1 < rows.length := hlen1 ▸ hi1
    refine ⟨n.1, rows1.get ⟨n.1, hi1⟩, rows.get ⟨n.1, hi0⟩, hio,
      List.get?_eq_get hi1, List.get?_eq_get hi0, ?_, ?_⟩
    · have hmapeq := foldlM_subregionStep_skel hok2
      have h2 := congrArg (fun l => l.get? n.1) hmapeq
      simp only [List.get?_map] at h2
      rw [hio, List.get?_eq_get hi1] at h2
      simpa using h2
    · have h2 : rows1.get? n.1 =
          some (continentUpdate (some w) (rows.get ⟨n.1, hi0⟩)) := by
        rw [hrows1, List.get?_map, List.get?_eq_get hi0, Option.map_some']
      rw [List.get?_eq_get hi1] at h2
      exact Option.some_inj.mp h2
  refine ⟨?_, ?_, ?_⟩
  · -- continents point at the world key
    intro r hr htype
    obtain ⟨i, r1, r0, hio, hi1, hi0, hsk, hcu⟩ := hsrc r hr
    have hty1 : r1.area_type = "continent" := by
      rw [← hfield_type hsk]
      exact htype
    have hty0 : r0.area_type = "continent" := by
      have h1 : r1.area_type = r0.area_type := by
        rw [hcu]
        exact hfield_type (skelA_continentUpdate (some w) r0)
      rw [← h1]
      exact hty1
    have hpar1 : r1.parent_area_key = some w := by
      rw [hcu, continentUpdate, if_pos (by simp [hty0])]
    have hfix : out.get? i = some r1 := by
      apply foldlM_subregionStep_fix hok2 i r1 hi1
      intro s hs hks
      exfalso
      obtain ⟨rs, hrsmem, hrstype, hse⟩ := hsub_of_mem s hs
      have heq : r1 = rs := by
        apply hkey_inj r1 (List.get?_mem hi1) rs hrsmem
        rw [hks, hse]
      rw [heq, hrstype] at hty1
      exact absurd hty1 (by decide)
    rw [hio] at hfix
    rw [Option.some_inj.mp hfix, hpar1]
  · -- subregions with a configured parent present once in the dimension
    intro r hr htype c k hpc hck
    obtain ⟨i, r1, r0, hio, hi1, hi0, hsk, hcu⟩ := hsrc r hr
    have hty1 : r1.area_type = "subregion" := by
      rw [← hfield_type hsk]
      exact htype
    have hnm1 : r1.area_name = r.area_name := (hfield_name hsk).symm
    have hs0 : (r1.area_key, r1.area_name) ∈ subs := by
      rw [hsubs_def]
      exact List.mem_map.mpr ⟨r1,
        List.mem_filter.mpr ⟨List.get?_mem hi1, by simp [hty1]⟩, rfl⟩
    obtain ⟨l1, l2, hsplit⟩ := List.append_of_mem hs0
    have hsubkeys : (subs.map Prod.fst).Nodup := by
      have hform : subs.map Prod.fst =
          (rows1.filter (fun r => r.area_type == "subregion")).map
            (fun r => r.area_key) := by
        rw [hsubs_def, List.map_map]
        rfl
      rw [hform]
      exact List.Nodup.sublist
        (List.Sublist.map _ (List.filter_sublist rows1)) hnodup1
    rw [hsplit, List.map_append, List.map_cons] at hsubkeys
    obtain ⟨-, hmid, hdisj⟩ := List.nodup_append.mp hsubkeys
    have hnotl1 : r1.area_key ∉ l1.map Prod.fst :=
      fun hmem => hdisj hmem (List.mem_cons_self _ _)
    have hnotl2 : r1.area_key ∉ l2.map Prod.fst := (List.nodup_cons.mp hmid).1
    have hf : (l1 ++ (r1.area_key, r1.area_name) :: l2).foldlM
        subregionStep rows1 = Except.ok out := by
      rw [← hsplit]
      exact hok2
    rw [List.foldlM_append] at hf
    cases hl1 : l1.foldlM subregionStep rows1 with
    | error e =>
      rw [hl1] at hf
      exact absurd (show (Except.error e : Except String (List AreaRow)) =
        Except.ok out from hf) (by simp)
    | ok acc1 =>
    rw [hl1] at hf
    have hf2 : ((r1.area_key, r1.area_name) :: l2).foldlM subregionStep acc1 =
        Except.ok out := hf
    rw [List.foldlM_cons] at hf2
    cases hstep : subregionStep acc1 (r1.area_key, r1.area_name) with
    | error e =>
      rw [hstep] at hf2
      exact absurd (show (Except.error e : Except String (List AreaRow)) =
        Except.ok out from hf2) (by simp)
    | ok acc2 =>
    rw [hstep] at hf2
    have hf3 : l2.foldlM subregionStep acc2 = Except.ok out := hf2
    have hacc1i : acc1.get? i = some r1 := by
      apply foldlM_subregionStep_fix hl1 i r1 hi1
      intro s hs hks
      exfalso
      apply hnotl1
      have hmem := List.mem_map_of_mem Prod.fst hs
      rw [← hks] at hmem
      exact hmem
    have hskelacc1 : acc1.map skelA = rows.map skelA := by
      rw [foldlM_subregionStep_skel hl1, hskel1]
    have hckacc1 : continentKeys acc1 c = [k] := by
      rw [continentKeys_congr_of_skel hskelacc1 c, hck]
    have hpc1 : get_parent_area r1.area_name "subregion" = some c := by
      rw [hnm1]
      exact hpc
    rw [subregionStep_eval, hpc1] at hstep
    have hstep2 : (match scalarSubquery (continentKeys acc1 c) with
        | Except.error e => Except.error e
        | Except.ok pk => Except.ok (acc1.map (fun r =>
            if r.area_key == r1.area_key then { r with parent_area_key := pk }
            else r))) = Except.ok acc2 := hstep
    rw [hckacc1] at hstep2
    have hstep3 : Except.ok (acc1.map (fun r =>
        if r.area_key == r1.area_key then { r with parent_area_key := some k }
        else r)) = Except.ok acc2 := hstep2
    injection hstep3 with hacc2
    have hacc2i : acc2.get? i =
        some { r1 with parent_area_key := some k } := by
      rw [← hacc2, List.get?_map, hacc1i, Option.map_some']
      simp
    have hfinal : out.get? i = some { r1 with parent_area_key := some k } := by
      apply foldlM_subregionStep_fix hf3 i _ hacc2i
      intro s hs hks
      exfalso
      apply hnotl2
      have hmem := List.mem_map_of_mem Prod.fst hs
      rw [← hks] at hmem
      exact hmem
    rw [hio] at hfinal
    rw [Option.some_inj.mp hfinal]
  · -- subregions with no configured parent keep a null parent
    intro r hr htype hpc
    obtain ⟨i, r1, r0, hio, hi1, hi0, hsk, hcu⟩ := hsrc r hr
    have hty1 : r1.area_type = "subregion" := by
      rw [← hfield_type hsk]
      exact htype
    have hnm1 : r1.area_name = r.area_name := (hfield_name hsk).symm
    have hfix : out.get? i = some r1 := by
      apply foldlM_subregionStep_fix hok2 i r1 hi1
      intro s hs hks
      obtain ⟨rs, hrsmem, hrstype, hse⟩ := hsub_of_mem s hs
      have heq : r1 = rs := by
        apply hkey_inj r1 (List.get?_mem hi1) rs hrsmem
        rw [hks, hse]
      rw [hse]
      show get_parent_area rs.area_name "subregion" = none
      rw [← heq, hnm1]
      exact hpc
    rw [hio] at hfix
    have hty0 : r0.area_type = "subregion" := by
      have h1 : r1.area_type = r0.area_type := by
        rw [hcu]
        exact hfield_type (skelA_continentUpdate (some w) r0)
      rw [← h1]
      exact hty1
    have hr10 : r1 = r0 := by
      rw [hcu, continentUpdate, if_neg (by simp [hty0])]
    rw [Option.some_inj.mp hfix, hr10]
    exact hinit r0 (List.get?_mem hi0)

/-- C3: after the area-hierarchy fixup runs on the freshly inserted area
dimension rows, every continent row points at the surrogate key of the
single world row; every subregion row whose name has a configured parent
continent present (once) in the dimension points at that continent row; and
a subregion with no configured parent continent keeps a null parent key,
without the fixup raising an error on it. -/
theorem C3_area_hierarchy_fixup (df : List ClassifiedRecord)
    (out : List AreaRow) (w : Nat)
    (hw : ((load_dim_area_rows df).filter
      (fun r => r.area_type == "world")).map (fun r => r.area_key) = [w])
    (hok : update_area_hierarchy (load_dim_area_rows df) = Except.ok out) :
    (∀ r ∈ out, r.area_type = "continent" → r.parent_area_key = some w) ∧
    (∀ r ∈ out, r.area_type = "subregion" → ∀ c k,
        get_parent_area r.area_name "subregion" = some c →
        continentKeys (load_dim_area_rows df) c = [k] →
        r.parent_area_key = some k) ∧
    (∀ r ∈ out, r.area_type = "subregion" →
        get_parent_area r.area_name "subregion" = none →
        r.parent_area_key = none) :=
  update_area_hierarchy_sound (load_dim_area_rows df) out w
    (load_dim_area_rows_keys_nodup df) (load_dim_area_rows_parent_none df)
    hw hok
/-- Witness for C3: loading World, continent Africa, subregion Eastern
Africa and the unconfigured subregion Atlantis, the fixup points Africa at
World (key 1), Eastern Africa at Africa (key 2), and leaves Atlantis with a
null parent. -/
theorem C3_witness :
    (∀ r ∈ hierSampleOut, r.area_type = "continent" →
        r.parent_area_key = some 1) ∧
    (∀ r ∈ hierSampleOut, r.area_type = "subregion" → ∀ c k,
        get_parent_area r.area_name "subregion" = some c →
        continentKeys (load_dim_area_rows hierSample) c = [k] →
        r.parent_area_key = some k) ∧
    (∀ r ∈ hierSampleOut, r.area_type = "subregion" →
        get_parent_area r.area_name "subregion" = none →
        r.parent_area_key = none) :=
  C3_area_hierarchy_fixup hierSample hierSampleOut 1 (by decide) (by decide)

theorem foldl_append_staging (bl : List (List LongRecord)) (db0 : DB) :
    bl.foldl (fun acc b => { acc with staging := acc.staging ++ b }) db0 =
      { db0 with staging := db0.staging ++ bl.join } := by
  induction bl generalizing db0 with
  | nil => simp
  | cons b bl ih =>
    rw [List.foldl_cons, ih]
    simp [List.append_assoc]

theorem load_to_staging_eq (bs : Nat) (t : List ClassifiedRecord) (db : DB) :
    load_to_staging bs t db =
      { db with staging :=
          (batches bs t.length (t.map stagingProjection)).join } := by
  rw [load_to_staging, foldl_append_staging]
  rfl

theorem load_data_eq (bs : Nat) (t : List ClassifiedRecord) (db : DB) :
    load_data bs t db =
      match update_area_hierarchy (load_dim_area_rows t) with
      | Except.error e => Except.error e
      | Except.ok dimA =>
        Except.ok
          (⟨(batches bs t.length (t.map stagingProjection)).join, dimA,
            load_dim_time_period t, load_dim_metric t,
            load_facts ((batches bs t.length (t.map stagingProjection)).join)
              dimA (load_dim_time_period t) (load_dim_metric t)⟩,
           ⟨((batches bs t.length (t.map stagingProjection)).join).length,
            dimA.length, (load_dim_time_period t).length,
            (load_dim_metric t).length,
            (load_facts ((batches bs t.length
              (t.map stagingProjection)).join) dimA
              (load_dim_time_period t) (load_dim_metric t)).length⟩) := by
  rw [load_data, load_dimensions, load_to_staging_eq]
  cases h : update_area_hierarchy (load_dim_area_rows t) with
  | error e => rfl
  | ok dimA => rfl

theorem load_data_db_indep (bs : Nat) (t : List ClassifiedRecord)
    (db db2 : DB) : load_data bs t db = load_data bs t db2 := by
  rw [load_data_eq, load_data_eq]

/-- C1: the load pipeline rebuilds every table from the transformed frame
alone, so running transform plus load a second time on the same input — now
against the warehouse state the first run left behind — succeeds with the
same final warehouse state and, in particular, identical reported row
counts for staging, the three dimensions and the fact table. -/
theorem C1_pipeline_idempotent (bs : Nat) (df : WideDF) (db db1 : DB)
    (s1 : Stats) (h : pipeline bs df db = Except.ok (db1, s1)) :
    pipeline bs df db1 = Except.ok (db1, s1) := by
  rw [pipeline] at h ⊢
  cases ht : transform_data df with
  | error e =>
    rw [ht] at h
    exact absurd (show (Except.error e : Except String (DB × Stats)) =
      Except.ok (db1, s1) from h) (by simp)
  | ok t =>
    rw [ht] at h
    have h2 : load_data bs t db = Except.ok (db1, s1) := h
    show load_data bs t db1 = Except.ok (db1, s1)
    rw [load_data_db_indep bs t db1 db]
    exact h2

/-- Witness for C1: a first run on `wideSample` against the empty warehouse
produces `wideSampleDB` with counts `wideSampleStats`; the second run,
started from that state, reports the same counts. -/
theorem C1_witness :
    pipeline 1 wideSample wideSampleDB =
      Except.ok (wideSampleDB, wideSampleStats) :=
  C1_pipeline_idempotent 1 wideSample ⟨[], [], [], [], []⟩ wideSampleDB
    wideSampleStats (by decide)

end LandTemp
